import Mathlib

/-!
Shallow embedding of the `AssetPackageData` registry record codec from
`unreal_asset_registry/src/objects/asset_package_data.rs`, together with the
primitive archive layer it relies on (modelled from the specification, since
the archive/reader crate is not part of the analysed sources).

Bytes are modelled as `List Nat` (little-endian throughout), readers are
functions `List Nat → Except Error (α × List Nat)` returning the decoded value
and the remaining bytes, and the writer accumulates the bytes emitted so far,
returning them together with `Option Error` so that partial output written
before an error is observable (matching the mutable archive in the source).
-/

set_option maxRecDepth 10000

namespace UnrealAsset

/-- Modelled from the spec: the registry format version is "a single
monotonically increasing registry format version enum"; variants are ordinally
comparable, so we represent a version by its ordinal. -/
abbrev FAssetRegistryVersionType := Nat

namespace FAssetRegistryVersionType

/-- Modelled from the spec: threshold at which the cooked MD5 hash appeared. -/
def AddedCookedMD5Hash : FAssetRegistryVersionType := 6

/-- Modelled from the spec: threshold gating the file-version group. -/
def WorkspaceDomain : FAssetRegistryVersionType := 9

/-- Modelled from the spec: threshold gating the imported-classes list. -/
def PackageImportedClasses : FAssetRegistryVersionType := 10

/-- Modelled from the spec: threshold gating `ue5_version` (nested inside the
`WorkspaceDomain` gate, hence above it in the order). -/
def PackageFileSummaryVersionChange : FAssetRegistryVersionType := 11

end FAssetRegistryVersionType

/-- Modelled from the spec: the UE5 object format version axis, ordinal. -/
abbrev ObjectVersionUE5 := Nat

/-- Modelled from the spec: the UE5 object-version threshold gating the
package build dependencies list (UE5.5+). -/
def ObjectVersionUE5.ASSETREGISTRY_PACKAGEBUILDDEPENDENCIES : ObjectVersionUE5 := 1013

/-- Error taxonomy. `registryVersion f v` embeds
`RegistryError::version(f, v)`: a missing required field `f` under record
version `v` (encode-time data-integrity error). -/
inductive Error where
  | ioError : Error
  | formatError : Error
  | registryVersion : String → FAssetRegistryVersionType → Error
  deriving DecidableEq, Repr

/-- Modelled from the spec: a `Name` is `u32 pool_index` + `u32 instance_number`
on the wire; equality is structural. -/
structure FName where
  index : Nat
  number : Nat
  deriving DecidableEq, Repr

/-- Modelled from the spec: an opaque 16-byte value, stored byte-for-byte. -/
structure Guid where
  data : List Nat
  deriving DecidableEq, Repr

/-- Modelled from the spec: a fixed 16-byte MD5-style content digest. -/
structure FMD5Hash where
  hash : List Nat
  deriving DecidableEq, Repr

/-- Modelled from the spec: a custom version entry is
`{feature_guid: Guid, revision: i32}`. -/
structure CustomVersion where
  guid : Guid
  version : Int
  deriving DecidableEq, Repr

/-! ### Little-endian primitive encoding (Primitive Archive, write side) -/

/-- Little-endian bytes of a `u32`. -/
def u32ToLE (n : Nat) : List Nat :=
  [n % 256, n / 256 % 256, n / 65536 % 256, n / 16777216 % 256]

/-- Little-endian bytes of a `u64`. -/
def u64ToLE (n : Nat) : List Nat :=
  [n % 256, n / 256 % 256, n / 65536 % 256, n / 16777216 % 256,
   n / 4294967296 % 256, n / 1099511627776 % 256,
   n / 281474976710656 % 256, n / 72057594037927936 % 256]

/-- Little-endian bytes of an `i32` (two's complement). -/
def i32ToLE (i : Int) : List Nat := u32ToLE (i.emod 4294967296).toNat

/-- Little-endian bytes of an `i64` (two's complement). -/
def i64ToLE (i : Int) : List Nat := u64ToLE (i.emod 18446744073709551616).toNat

/-- Wire bytes of an `FName`: pool index then instance number. -/
def FName.writeBytes (f : FName) : List Nat := u32ToLE f.index ++ u32ToLE f.number

/-- Wire bytes of a custom version entry: feature guid then `i32` revision. -/
def CustomVersion.writeBytes (cv : CustomVersion) : List Nat :=
  cv.guid.data ++ i32ToLE cv.version

/-! ### Primitive Archive, read side (modelled from the spec §4.1) -/

/-- Read exactly `n` bytes; a short read is an `IoError`. -/
def readBytesN (n : Nat) (bytes : List Nat) : Except Error (List Nat × List Nat) :=
  if n ≤ bytes.length then .ok (bytes.take n, bytes.drop n) else .error .ioError

/-- Value of a little-endian byte list. -/
def leToNat : List Nat → Nat
  | [] => 0
  | b :: rest => b + 256 * leToNat rest

/-- Reinterpret an unsigned 32-bit value as signed (two's complement). -/
def toSigned32 (n : Nat) : Int :=
  if n < 2147483648 then (n : Int) else (n : Int) - 4294967296

/-- Reinterpret an unsigned 64-bit value as signed (two's complement). -/
def toSigned64 (n : Nat) : Int :=
  if n < 9223372036854775808 then (n : Int) else (n : Int) - 18446744073709551616

/-- Read a little-endian `u32`. -/
def readU32 (bytes : List Nat) : Except Error (Nat × List Nat) :=
  match readBytesN 4 bytes with
  | .error e => .error e
  | .ok (b, rest) => .ok (leToNat b, rest)

/-- Read a little-endian `i32`. -/
def readI32 (bytes : List Nat) : Except Error (Int × List Nat) :=
  match readU32 bytes with
  | .error e => .error e
  | .ok (n, rest) => .ok (toSigned32 n, rest)

/-- Read a little-endian `i64`. -/
def readI64 (bytes : List Nat) : Except Error (Int × List Nat) :=
  match readBytesN 8 bytes with
  | .error e => .error e
  | .ok (b, rest) => .ok (toSigned64 (leToNat b), rest)

/-- Read a 16-byte guid verbatim. -/
def readGuid (bytes : List Nat) : Except Error (Guid × List Nat) :=
  match readBytesN 16 bytes with
  | .error e => .error e
  | .ok (b, rest) => .ok (⟨b⟩, rest)

/-- Read an `FName`: `u32` pool index then `u32` instance number. -/
def FName.read (bytes : List Nat) : Except Error (FName × List Nat) :=
  match readU32 bytes with
  | .error e => .error e
  | .ok (idx, rest) =>
    match readU32 rest with
    | .error e => .error e
    | .ok (num, rest) => .ok (⟨idx, num⟩, rest)

/-- Read a 16-byte MD5-style content hash (`FMD5Hash::new`). -/
def FMD5Hash.read (bytes : List Nat) : Except Error (FMD5Hash × List Nat) :=
  match readBytesN 16 bytes with
  | .error e => .error e
  | .ok (b, rest) => .ok (⟨b⟩, rest)

/-- Read a custom version entry (`CustomVersion::read`): guid then `i32`. -/
def CustomVersion.read (bytes : List Nat) : Except Error (CustomVersion × List Nat) :=
  match readGuid bytes with
  | .error e => .error e
  | .ok (g, rest) =>
    match readI32 rest with
    | .error e => .error e
    | .ok (v, rest) => .ok (⟨g, v⟩, rest)

/-- Read `count` consecutive elements with the element reader. -/
def readElems {α : Type} (elem : List Nat → Except Error (α × List Nat)) :
    Nat → List Nat → Except Error (List α × List Nat)
  | 0, bytes => .ok ([], bytes)
  | n + 1, bytes =>
    match elem bytes with
    | .error e => .error e
    | .ok (x, rest) =>
      match readElems elem n rest with
      | .error e => .error e
      | .ok (xs, rest) => .ok (x :: xs, rest)

/-- The `read_array` primitive: an `i32` count followed by `count` elements;
a negative count is a `FormatError` (spec §4.1). -/
def read_array {α : Type} (elem : List Nat → Except Error (α × List Nat))
    (bytes : List Nat) : Except Error (List α × List Nat) :=
  match readI32 bytes with
  | .error e => .error e
  | .ok (count, rest) =>
    if count < 0 then .error .formatError
    else readElems elem count.toNat rest

/-! ### The `AssetPackageData` record (asset_package_data.rs, lines 18-46) -/

/-- The per-package metadata record. The `version` field embeds the private
`version: FAssetRegistryVersionType` field of the Rust struct, stored at
construction time. -/
structure AssetPackageData where
  package_name : FName
  package_guid : Guid
  cooked_hash : Option FMD5Hash
  imported_classes : Option (List FName)
  disk_size : Int
  file_version : Int
  ue5_version : Option Int
  file_version_licensee_ue : Int
  custom_versions : Option (List CustomVersion)
  flags : Nat
  package_build_dependencies : Option (List FName)
  version : FAssetRegistryVersionType
  deriving DecidableEq, Repr

/-! ### Decoding (`AssetPackageData::new`, lines 50-109) -/

/-- Lines 59-62: read the cooked hash when
`version >= AddedCookedMD5Hash`, otherwise leave it `None`. -/
def readCookedHash (version : FAssetRegistryVersionType) (bytes : List Nat) :
    Except Error (Option FMD5Hash × List Nat) :=
  if FAssetRegistryVersionType.AddedCookedMD5Hash ≤ version then
    match FMD5Hash.read bytes with
    | .error e => .error e
    | .ok (h, rest) => .ok (some h, rest)
  else .ok (none, bytes)

/-- Lines 70-75: inside the `WorkspaceDomain` gate, read `file_version` and,
when `version >= PackageFileSummaryVersionChange`, also `ue5_version`. -/
def readFvU5 (version : FAssetRegistryVersionType) (bytes : List Nat) :
    Except Error ((Int × Option Int) × List Nat) :=
  if FAssetRegistryVersionType.PackageFileSummaryVersionChange ≤ version then
    match readI32 bytes with
    | .error e => .error e
    | .ok (fv, rest) =>
      match readI32 rest with
      | .error e => .error e
      | .ok (u5, rest) => .ok ((fv, some u5), rest)
  else
    match readI32 bytes with
    | .error e => .error e
    | .ok (fv, rest) => .ok ((fv, none), rest)

/-- Lines 64-81: the file-version group. Defaults are
`file_version = 0`, `ue5_version = None`, `file_version_licensee_ue = -1`,
`flags = 0`, `custom_versions = None`. -/
def readFileVersions (version : FAssetRegistryVersionType) (bytes : List Nat) :
    Except Error ((Int × Option Int × Int × Nat × Option (List CustomVersion)) × List Nat) :=
  if FAssetRegistryVersionType.WorkspaceDomain ≤ version then
    match readFvU5 version bytes with
    | .error e => .error e
    | .ok ((file_version, ue5_version), rest) =>
      match readI32 rest with
      | .error e => .error e
      | .ok (lic, rest) =>
        match readU32 rest with
        | .error e => .error e
        | .ok (flags, rest) =>
          match read_array CustomVersion.read rest with
          | .error e => .error e
          | .ok (cvs, rest) =>
            .ok ((file_version, ue5_version, lic, flags, some cvs), rest)
  else .ok ((0, none, -1, 0, none), bytes)

/-- Lines 83-86: read the imported-classes array when
`version >= PackageImportedClasses`. -/
def readImportedClasses (version : FAssetRegistryVersionType) (bytes : List Nat) :
    Except Error (Option (List FName) × List Nat) :=
  if FAssetRegistryVersionType.PackageImportedClasses ≤ version then
    match read_array FName.read bytes with
    | .error e => .error e
    | .ok (ics, rest) => .ok (some ics, rest)
  else .ok (none, bytes)

/-- Lines 88-92: read the build-dependencies array when the archive's UE5
object version is at least `ASSETREGISTRY_PACKAGEBUILDDEPENDENCIES`. -/
def readBuildDependencies (objectVersionUE5 : ObjectVersionUE5) (bytes : List Nat) :
    Except Error (Option (List FName) × List Nat) :=
  if ObjectVersionUE5.ASSETREGISTRY_PACKAGEBUILDDEPENDENCIES ≤ objectVersionUE5 then
    match read_array FName.read bytes with
    | .error e => .error e
    | .ok (deps, rest) => .ok (some deps, rest)
  else .ok (none, bytes)

/-- Decoding, `AssetPackageData::new` (lines 50-109): decode a record from `bytes` under
registry version `version`; `objectVersionUE5` is the archive's UE5 object
version (`asset.get_object_version_ue5()`). Returns the record and the
remaining bytes. -/
def AssetPackageData.new (bytes : List Nat) (version : FAssetRegistryVersionType)
    (objectVersionUE5 : ObjectVersionUE5) :
    Except Error (AssetPackageData × List Nat) :=
  match FName.read bytes with
  | .error e => .error e
  | .ok (package_name, bytes) =>
  match readI64 bytes with
  | .error e => .error e
  | .ok (disk_size, bytes) =>
  match readGuid bytes with
  | .error e => .error e
  | .ok (package_guid, bytes) =>
  match readCookedHash version bytes with
  | .error e => .error e
  | .ok (cooked_hash, bytes) =>
  match readFileVersions version bytes with
  | .error e => .error e
  | .ok ((file_version, ue5_version, file_version_licensee_ue, flags, custom_versions), bytes) =>
  match readImportedClasses version bytes with
  | .error e => .error e
  | .ok (imported_classes, bytes) =>
  match readBuildDependencies objectVersionUE5 bytes with
  | .error e => .error e
  | .ok (package_build_dependencies, bytes) =>
    .ok ({ package_name, package_guid, cooked_hash, imported_classes, disk_size,
           file_version, ue5_version, file_version_licensee_ue, custom_versions,
           flags, package_build_dependencies, version }, bytes)

/-! ### Encoding (`AssetPackageData::write`, lines 112-177)

The Rust method writes to a mutable archive and early-returns on a missing
required field; we model the archive as the accumulated byte list `out`, so
the result carries the bytes written before a potential error. The
continuation-style helpers below correspond to the successive statements of
`write`, each receiving the output accumulated so far. -/

/-- Lines 163-174: the build-dependencies block. When the archive's UE5
object version gate holds, an absent list falls back to writing a zero count
("Write empty array"); this block never fails. -/
def AssetPackageData.writePbd (self : AssetPackageData)
    (objectVersionUE5 : ObjectVersionUE5) (out : List Nat) : List Nat × Option Error :=
  if ObjectVersionUE5.ASSETREGISTRY_PACKAGEBUILDDEPENDENCIES ≤ objectVersionUE5 then
    match self.package_build_dependencies with
    | some deps =>
      (out ++ i32ToLE (Int.ofNat deps.length) ++ deps.flatMap FName.writeBytes, none)
    | none => (out ++ i32ToLE 0, none)
  else (out, none)

/-- Lines 153-161: the imported-classes block. Note: the source writes the
names only, with no preceding element count. -/
def AssetPackageData.writeImported (self : AssetPackageData)
    (objectVersionUE5 : ObjectVersionUE5) (out : List Nat) : List Nat × Option Error :=
  if FAssetRegistryVersionType.PackageImportedClasses ≤ self.version then
    match self.imported_classes with
    | none => (out, some (.registryVersion "Imported classes" self.version))
    | some ics => self.writePbd objectVersionUE5 (out ++ ics.flatMap FName.writeBytes)
  else self.writePbd objectVersionUE5 out

/-- Lines 140-150: licensee version, flags, and the custom-versions array
(count then entries); reached only inside the `WorkspaceDomain` gate. -/
def AssetPackageData.writeFileTail (self : AssetPackageData)
    (objectVersionUE5 : ObjectVersionUE5) (out : List Nat) : List Nat × Option Error :=
  match self.custom_versions with
  | none =>
    (out ++ i32ToLE self.file_version_licensee_ue ++ u32ToLE self.flags,
     some (.registryVersion "Custom versions" self.version))
  | some cvs =>
    self.writeImported objectVersionUE5
      (out ++ i32ToLE self.file_version_licensee_ue ++ u32ToLE self.flags ++
        i32ToLE (Int.ofNat cvs.length) ++ cvs.flatMap CustomVersion.writeBytes)

/-- Lines 130-151: the `WorkspaceDomain`-gated file-version group, with
`ue5_version` required when `version >= PackageFileSummaryVersionChange`
(the file version itself is written before that requirement is checked). -/
def AssetPackageData.writeFileVersions (self : AssetPackageData)
    (objectVersionUE5 : ObjectVersionUE5) (out : List Nat) : List Nat × Option Error :=
  if FAssetRegistryVersionType.WorkspaceDomain ≤ self.version then
    if FAssetRegistryVersionType.PackageFileSummaryVersionChange ≤ self.version then
      match self.ue5_version with
      | none =>
        (out ++ i32ToLE self.file_version,
         some (.registryVersion "UE5 Version" self.version))
      | some u5 =>
        self.writeFileTail objectVersionUE5 (out ++ i32ToLE self.file_version ++ i32ToLE u5)
    else self.writeFileTail objectVersionUE5 (out ++ i32ToLE self.file_version)
  else self.writeImported objectVersionUE5 out

/-- Encoding, `AssetPackageData::write` (lines 112-177): encode the record. The first
component is every byte written to the archive before the method returned;
the second is `some e` when the method returned the error `e`. -/
def AssetPackageData.write (self : AssetPackageData)
    (objectVersionUE5 : ObjectVersionUE5) : List Nat × Option Error :=
  if FAssetRegistryVersionType.AddedCookedMD5Hash ≤ self.version then
    match self.cooked_hash with
    | none =>
      (self.package_name.writeBytes ++ i64ToLE self.disk_size ++ self.package_guid.data,
       some (.registryVersion "Cooked hash" self.version))
    | some ch =>
      self.writeFileVersions objectVersionUE5
        (self.package_name.writeBytes ++ i64ToLE self.disk_size ++ self.package_guid.data ++
          ch.hash)
  else
    self.writeFileVersions objectVersionUE5
      (self.package_name.writeBytes ++ i64ToLE self.disk_size ++ self.package_guid.data)

/-! ### Decidable equality for decode results -/

instance {ε α : Type} [DecidableEq ε] [DecidableEq α] : DecidableEq (Except ε α) := fun a b =>
  match a, b with
  | .error x, .error y =>
    if h : x = y then .isTrue (by rw [h]) else .isFalse (fun hc => h (Except.error.inj hc))
  | .error _, .ok _ => .isFalse (fun hc => Except.noConfusion hc)
  | .ok _, .error _ => .isFalse (fun hc => Except.noConfusion hc)
  | .ok x, .ok y =>
    if h : x = y then .isTrue (by rw [h]) else .isFalse (fun hc => h (Except.ok.inj hc))

/-! ### Concrete sample values used by the claim theorems -/

/-- An all-zero 16-byte guid. -/
def zeroGuid : Guid := ⟨List.replicate 16 0⟩

/-- An all-zero 16-byte content hash. -/
def zeroHash : FMD5Hash := ⟨List.replicate 16 0⟩

/-- A record consistent with registry version `PackageImportedClasses` (10)
and a pre-UE5.5 object version: every gated field is populated exactly when
its gate holds, with one imported class. -/
def sampleV10 : AssetPackageData :=
  { package_name := ⟨0, 0⟩, package_guid := zeroGuid, cooked_hash := some zeroHash,
    imported_classes := some [⟨1, 2⟩], disk_size := 0, file_version := 522,
    ue5_version := none, file_version_licensee_ue := 0, custom_versions := some [],
    flags := 0, package_build_dependencies := none, version := 10 }

/-- The bytes of `sampleV10` up to (and excluding) the imported-classes
segment: name, disk size, guid, cooked hash, file version, licensee version,
flags, and the empty custom-versions array. -/
def sampleV10Head : List Nat :=
  FName.writeBytes ⟨0, 0⟩ ++ i64ToLE 0 ++ zeroGuid.data ++ zeroHash.hash ++
    i32ToLE 522 ++ i32ToLE 0 ++ u32ToLE 0 ++ i32ToLE 0

/-- A 32-byte input: enough for the three ungated fields (name, disk size,
guid) and nothing else. -/
def lowInput : List Nat := List.replicate 32 0

/-- The record produced by decoding `lowInput` at registry version 0. -/
def lowRec : AssetPackageData :=
  { package_name := ⟨0, 0⟩, package_guid := zeroGuid, cooked_hash := none,
    imported_classes := none, disk_size := 0, file_version := 0,
    ue5_version := none, file_version_licensee_ue := -1, custom_versions := none,
    flags := 0, package_build_dependencies := none, version := 0 }

/-- A record at registry version `PackageFileSummaryVersionChange` (11) with
both `cooked_hash` and `ue5_version` missing. -/
def sampleMissingBoth : AssetPackageData :=
  { package_name := ⟨0, 0⟩, package_guid := zeroGuid, cooked_hash := none,
    imported_classes := some [], disk_size := 0, file_version := 0,
    ue5_version := none, file_version_licensee_ue := 0, custom_versions := some [],
    flags := 0, package_build_dependencies := none, version := 11 }

/-- A fully-populated record at registry version 11 (UE5-era). -/
def sampleV11Full : AssetPackageData :=
  { package_name := ⟨3, 0⟩, package_guid := zeroGuid, cooked_hash := some zeroHash,
    imported_classes := some [], disk_size := 64, file_version := 522,
    ue5_version := some 1004, file_version_licensee_ue := 0, custom_versions := some [],
    flags := 0, package_build_dependencies := none, version := 11 }

/-- A record at registry version 0 carrying stale `Some` values for the
version-gated fields `cooked_hash` and `package_build_dependencies`. -/
def sampleStale : AssetPackageData :=
  { package_name := ⟨5, 6⟩, package_guid := zeroGuid, cooked_hash := some zeroHash,
    imported_classes := none, disk_size := 7, file_version := 0,
    ue5_version := none, file_version_licensee_ue := -1, custom_versions := none,
    flags := 0, package_build_dependencies := some [⟨7, 8⟩], version := 0 }

/-- A byte input for registry version `WorkspaceDomain` (9): name, disk size,
guid, cooked hash, file version, licensee version, flags, empty
custom-versions array. -/
def wdInput : List Nat :=
  FName.writeBytes ⟨1, 2⟩ ++ i64ToLE 5 ++ zeroGuid.data ++ zeroHash.hash ++
    i32ToLE 522 ++ i32ToLE 7 ++ u32ToLE 3 ++ i32ToLE 0

/-- The record produced by decoding `wdInput` at registry version 9. -/
def wdRec : AssetPackageData :=
  { package_name := ⟨1, 2⟩, package_guid := zeroGuid, cooked_hash := some zeroHash,
    imported_classes := none, disk_size := 5, file_version := 522,
    ue5_version := none, file_version_licensee_ue := 7, custom_versions := some [],
    flags := 3, package_build_dependencies := none, version := 9 }

/-- The record produced by decoding `wdInput` at registry version 0 (only the
ungated head is consumed). -/
def wdRecLow : AssetPackageData :=
  { package_name := ⟨1, 2⟩, package_guid := zeroGuid, cooked_hash := none,
    imported_classes := none, disk_size := 5, file_version := 0,
    ue5_version := none, file_version_licensee_ue := -1, custom_versions := none,
    flags := 0, package_build_dependencies := none, version := 0 }

/-- The record produced by decoding the output of `sampleStale` at registry
version 0 (the stale `Some` values are lost, matching spec scenario C). -/
def sampleStaleDecoded : AssetPackageData :=
  { package_name := ⟨5, 6⟩, package_guid := zeroGuid, cooked_hash := none,
    imported_classes := none, disk_size := 7, file_version := 0,
    ue5_version := none, file_version_licensee_ue := -1, custom_versions := none,
    flags := 0, package_build_dependencies := none, version := 0 }

/-- A record at registry version `AddedCookedMD5Hash` (6) with no cooked hash. -/
def sampleMissingHash : AssetPackageData := { lowRec with version := 6 }

/-- A record at registry version 11 whose only missing gated field is
`ue5_version`. -/
def sampleMissingUE5 : AssetPackageData := { sampleV11Full with ue5_version := none }

/-- A record at registry version 11 whose only missing gated field is
`custom_versions`. -/
def sampleMissingCV : AssetPackageData := { sampleV11Full with custom_versions := none }

/-- A record at registry version 10 whose only missing gated field is
`imported_classes`. -/
def sampleMissingIC : AssetPackageData :=
  { sampleV10 with imported_classes := none }

/-- The error outcome of `AssetPackageData::write` as a pure function of the
record alone: the first missing required field in declaration order, gated on
the record's stored `version`. This is the specification-style companion used
to state that the write-time archive version plays no part in the
registry-version gating. -/
def writeErr (s : AssetPackageData) : Option Error :=
  if FAssetRegistryVersionType.AddedCookedMD5Hash ≤ s.version ∧ s.cooked_hash = none then
    some (.registryVersion "Cooked hash" s.version)
  else if FAssetRegistryVersionType.WorkspaceDomain ≤ s.version ∧
      FAssetRegistryVersionType.PackageFileSummaryVersionChange ≤ s.version ∧
      s.ue5_version = none then
    some (.registryVersion "UE5 Version" s.version)
  else if FAssetRegistryVersionType.WorkspaceDomain ≤ s.version ∧
      s.custom_versions = none then
    some (.registryVersion "Custom versions" s.version)
  else if FAssetRegistryVersionType.PackageImportedClasses ≤ s.version ∧
      s.imported_classes = none then
    some (.registryVersion "Imported classes" s.version)
  else none

/-! ## Threshold arithmetic -/

theorem acmh_le_of_wd {v : FAssetRegistryVersionType}
    (h : FAssetRegistryVersionType.WorkspaceDomain ≤ v) :
    FAssetRegistryVersionType.AddedCookedMD5Hash ≤ v := by
  have h' : (9 : Nat) ≤ v := h
  show (6 : Nat) ≤ v
  omega

theorem wd_le_of_pic {v : FAssetRegistryVersionType}
    (h : FAssetRegistryVersionType.PackageImportedClasses ≤ v) :
    FAssetRegistryVersionType.WorkspaceDomain ≤ v := by
  have h' : (10 : Nat) ≤ v := h
  show (9 : Nat) ≤ v
  omega

theorem wd_le_of_pfsvc {v : FAssetRegistryVersionType}
    (h : FAssetRegistryVersionType.PackageFileSummaryVersionChange ≤ v) :
    FAssetRegistryVersionType.WorkspaceDomain ≤ v := by
  have h' : (11 : Nat) ≤ v := h
  show (9 : Nat) ≤ v
  omega

theorem not_pfsvc_of_not_wd {v : FAssetRegistryVersionType}
    (h : ¬ FAssetRegistryVersionType.WorkspaceDomain ≤ v) :
    ¬ FAssetRegistryVersionType.PackageFileSummaryVersionChange ≤ v := by
  have h' : ¬ (9 : Nat) ≤ v := h
  show ¬ (11 : Nat) ≤ v
  omega

theorem not_pic_of_not_wd {v : FAssetRegistryVersionType}
    (h : ¬ FAssetRegistryVersionType.WorkspaceDomain ≤ v) :
    ¬ FAssetRegistryVersionType.PackageImportedClasses ≤ v := by
  have h' : ¬ (9 : Nat) ≤ v := h
  show ¬ (10 : Nat) ≤ v
  omega

theorem not_wd_of_not_acmh {v : FAssetRegistryVersionType}
    (h : ¬ FAssetRegistryVersionType.AddedCookedMD5Hash ≤ v) :
    ¬ FAssetRegistryVersionType.WorkspaceDomain ≤ v := by
  have h' : ¬ (6 : Nat) ≤ v := h
  show ¬ (9 : Nat) ≤ v
  omega

/-! ## Option helper -/

theorem eq_none_of_isSome_false {α : Type} {a : Option α} (h : a.isSome = false) :
    a = none := by
  cases a
  · rfl
  · simp at h

/-! ## Decoder field-shape lemmas -/

theorem readCookedHash_isSome {version : FAssetRegistryVersionType} {bytes : List Nat}
    {o : Option FMD5Hash} {rest : List Nat}
    (h : readCookedHash version bytes = .ok (o, rest)) :
    o.isSome = decide (FAssetRegistryVersionType.AddedCookedMD5Hash ≤ version) := by
  unfold readCookedHash at h
  split at h
  · split at h
    · exact Except.noConfusion h
    · simp only [Except.ok.injEq, Prod.mk.injEq] at h
      obtain ⟨ho, -⟩ := h
      subst ho
      simp [*]
  · simp only [Except.ok.injEq, Prod.mk.injEq] at h
    obtain ⟨ho, -⟩ := h
    subst ho
    simp [*]

theorem readFvU5_isSome {version : FAssetRegistryVersionType} {bytes : List Nat}
    {fv : Int} {u5 : Option Int} {rest : List Nat}
    (h : readFvU5 version bytes = .ok ((fv, u5), rest)) :
    u5.isSome = decide (FAssetRegistryVersionType.PackageFileSummaryVersionChange ≤ version) := by
  unfold readFvU5 at h
  split at h
  · split at h
    · exact Except.noConfusion h
    · split at h
      · exact Except.noConfusion h
      · simp only [Except.ok.injEq, Prod.mk.injEq] at h
        obtain ⟨⟨-, hu⟩, -⟩ := h
        subst hu
        simp [*]
  · split at h
    · exact Except.noConfusion h
    · simp only [Except.ok.injEq, Prod.mk.injEq] at h
      obtain ⟨⟨-, hu⟩, -⟩ := h
      subst hu
      simp [*]

theorem readFileVersions_fields {version : FAssetRegistryVersionType} {bytes : List Nat}
    {fv : Int} {u5 : Option Int} {lic : Int} {fl : Nat}
    {cv : Option (List CustomVersion)} {rest : List Nat}
    (h : readFileVersions version bytes = .ok ((fv, u5, lic, fl, cv), rest)) :
    u5.isSome = decide (FAssetRegistryVersionType.PackageFileSummaryVersionChange ≤ version) ∧
    cv.isSome = decide (FAssetRegistryVersionType.WorkspaceDomain ≤ version) ∧
    (¬ FAssetRegistryVersionType.WorkspaceDomain ≤ version →
      fv = 0 ∧ u5 = none ∧ lic = -1 ∧ fl = 0) := by
  unfold readFileVersions at h
  split at h
  · split at h
    · exact Except.noConfusion h
    rename_i fv0 u50 rest0 hfvu5
    split at h
    · exact Except.noConfusion h
    split at h
    · exact Except.noConfusion h
    split at h
    · exact Except.noConfusion h
    simp only [Except.ok.injEq, Prod.mk.injEq] at h
    obtain ⟨⟨hfv, hu5, hlic, hfl, hcv⟩, -⟩ := h
    subst hfv hu5 hlic hfl hcv
    refine ⟨readFvU5_isSome hfvu5, by simp [*], fun hn => absurd ‹_› hn⟩
  · simp only [Except.ok.injEq, Prod.mk.injEq] at h
    obtain ⟨⟨hfv, hu5, hlic, hfl, hcv⟩, -⟩ := h
    subst hfv hu5 hlic hfl hcv
    have hp := not_pfsvc_of_not_wd ‹_›
    exact ⟨by simp [hp], by simp [*], fun _ => ⟨rfl, rfl, rfl, rfl⟩⟩

theorem readImportedClasses_isSome {version : FAssetRegistryVersionType} {bytes : List Nat}
    {o : Option (List FName)} {rest : List Nat}
    (h : readImportedClasses version bytes = .ok (o, rest)) :
    o.isSome = decide (FAssetRegistryVersionType.PackageImportedClasses ≤ version) := by
  unfold readImportedClasses at h
  split at h
  · split at h
    · exact Except.noConfusion h
    · simp only [Except.ok.injEq, Prod.mk.injEq] at h
      obtain ⟨ho, -⟩ := h
      subst ho
      simp [*]
  · simp only [Except.ok.injEq, Prod.mk.injEq] at h
    obtain ⟨ho, -⟩ := h
    subst ho
    simp [*]

theorem readBuildDependencies_isSome {objv : ObjectVersionUE5} {bytes : List Nat}
    {o : Option (List FName)} {rest : List Nat}
    (h : readBuildDependencies objv bytes = .ok (o, rest)) :
    o.isSome = decide (ObjectVersionUE5.ASSETREGISTRY_PACKAGEBUILDDEPENDENCIES ≤ objv) := by
  unfold readBuildDependencies at h
  split at h
  · split at h
    · exact Except.noConfusion h
    · simp only [Except.ok.injEq, Prod.mk.injEq] at h
      obtain ⟨ho, -⟩ := h
      subst ho
      simp [*]
  · simp only [Except.ok.injEq, Prod.mk.injEq] at h
    obtain ⟨ho, -⟩ := h
    subst ho
    simp [*]

/-- The populated-ness of every optional field of a successfully decoded
record, and the defaults of the non-optional gated fields, as functions of
the two version axes. -/
theorem new_fields {bytes : List Nat} {version : FAssetRegistryVersionType}
    {objv : ObjectVersionUE5} {rec : AssetPackageData} {rest : List Nat}
    (h : AssetPackageData.new bytes version objv = .ok (rec, rest)) :
    rec.version = version ∧
    rec.cooked_hash.isSome = decide (FAssetRegistryVersionType.AddedCookedMD5Hash ≤ version) ∧
    rec.ue5_version.isSome =
      decide (FAssetRegistryVersionType.PackageFileSummaryVersionChange ≤ version) ∧
    rec.custom_versions.isSome = decide (FAssetRegistryVersionType.WorkspaceDomain ≤ version) ∧
    rec.imported_classes.isSome =
      decide (FAssetRegistryVersionType.PackageImportedClasses ≤ version) ∧
    rec.package_build_dependencies.isSome =
      decide (ObjectVersionUE5.ASSETREGISTRY_PACKAGEBUILDDEPENDENCIES ≤ objv) ∧
    (¬ FAssetRegistryVersionType.WorkspaceDomain ≤ version →
      rec.file_version = 0 ∧ rec.ue5_version = none ∧
      rec.file_version_licensee_ue = -1 ∧ rec.flags = 0) := by
  unfold AssetPackageData.new at h
  split at h
  · exact Except.noConfusion h
  split at h
  · exact Except.noConfusion h
  split at h
  · exact Except.noConfusion h
  split at h
  · exact Except.noConfusion h
  rename_i ch b4 hch
  split at h
  · exact Except.noConfusion h
  rename_i fv0 u50 lic0 fl0 cv0 b5 hfvs
  split at h
  · exact Except.noConfusion h
  rename_i ic0 b6 hic
  split at h
  · exact Except.noConfusion h
  rename_i pbd0 b7 hpbd
  simp only [Except.ok.injEq, Prod.mk.injEq] at h
  obtain ⟨hrec, -⟩ := h
  subst hrec
  obtain ⟨hu5, hcv, hdef⟩ := readFileVersions_fields hfvs
  refine ⟨rfl, readCookedHash_isSome hch, hu5, hcv, readImportedClasses_isSome hic,
    readBuildDependencies_isSome hpbd, fun hn => ?_⟩
  obtain ⟨h1, h2, h3, h4⟩ := hdef hn
  exact ⟨h1, h2, h3, h4⟩

/-! ## Write-side lemmas -/

theorem writePbd_snd (s : AssetPackageData) (o : ObjectVersionUE5) (out : List Nat) :
    (s.writePbd o out).2 = none := by
  unfold AssetPackageData.writePbd
  split
  · split <;> rfl
  · rfl

theorem writePbd_absent {s : AssetPackageData} {o : ObjectVersionUE5} (out : List Nat)
    (ho : ObjectVersionUE5.ASSETREGISTRY_PACKAGEBUILDDEPENDENCIES ≤ o)
    (hp : s.package_build_dependencies = none) :
    s.writePbd o out = (out ++ i32ToLE 0, none) := by
  unfold AssetPackageData.writePbd
  rw [if_pos ho, hp]

theorem writePbd_low {s : AssetPackageData} {o : ObjectVersionUE5} (out : List Nat)
    (ho : ¬ ObjectVersionUE5.ASSETREGISTRY_PACKAGEBUILDDEPENDENCIES ≤ o) :
    s.writePbd o out = (out, none) := by
  unfold AssetPackageData.writePbd
  rw [if_neg ho]

theorem writeImported_snd_none {s : AssetPackageData} {o : ObjectVersionUE5} (out : List Nat)
    (hic : FAssetRegistryVersionType.PackageImportedClasses ≤ s.version →
      s.imported_classes.isSome) :
    (s.writeImported o out).2 = none := by
  unfold AssetPackageData.writeImported
  split
  · rename_i hgate
    split
    · rename_i heq
      have hx := hic hgate
      rw [heq] at hx
      simp at hx
    · exact writePbd_snd s o _
  · exact writePbd_snd s o _

theorem writeFileTail_snd_none {s : AssetPackageData} {o : ObjectVersionUE5} (out : List Nat)
    (hcv : s.custom_versions.isSome)
    (hic : FAssetRegistryVersionType.PackageImportedClasses ≤ s.version →
      s.imported_classes.isSome) :
    (s.writeFileTail o out).2 = none := by
  unfold AssetPackageData.writeFileTail
  split
  · rename_i heq
    rw [heq] at hcv
    simp at hcv
  · exact writeImported_snd_none _ hic

theorem writeFileVersions_snd_none {s : AssetPackageData} {o : ObjectVersionUE5}
    (out : List Nat)
    (hu : FAssetRegistryVersionType.PackageFileSummaryVersionChange ≤ s.version →
      s.ue5_version.isSome)
    (hcv : FAssetRegistryVersionType.WorkspaceDomain ≤ s.version →
      s.custom_versions.isSome)
    (hic : FAssetRegistryVersionType.PackageImportedClasses ≤ s.version →
      s.imported_classes.isSome) :
    (s.writeFileVersions o out).2 = none := by
  unfold AssetPackageData.writeFileVersions
  split
  · rename_i hwd
    split
    · rename_i hp
      split
      · rename_i heq
        have hx := hu hp
        rw [heq] at hx
        simp at hx
      · exact writeFileTail_snd_none _ (hcv hwd) hic
    · exact writeFileTail_snd_none _ (hcv hwd) hic
  · exact writeImported_snd_none _ hic

theorem write_snd_none {s : AssetPackageData} {o : ObjectVersionUE5}
    (hch : FAssetRegistryVersionType.AddedCookedMD5Hash ≤ s.version →
      s.cooked_hash.isSome)
    (hu : FAssetRegistryVersionType.PackageFileSummaryVersionChange ≤ s.version →
      s.ue5_version.isSome)
    (hcv : FAssetRegistryVersionType.WorkspaceDomain ≤ s.version →
      s.custom_versions.isSome)
    (hic : FAssetRegistryVersionType.PackageImportedClasses ≤ s.version →
      s.imported_classes.isSome) :
    (s.write o).2 = none := by
  unfold AssetPackageData.write
  split
  · rename_i ha
    split
    · rename_i heq
      have hx := hch ha
      rw [heq] at hx
      simp at hx
    · exact writeFileVersions_snd_none _ hu hcv hic
  · exact writeFileVersions_snd_none _ hu hcv hic

theorem writePbd_fst_ext {s : AssetPackageData} {o : ObjectVersionUE5}
    {out bs : List Nat} {e : Option Error} (h : s.writePbd o out = (bs, e)) :
    ∃ t, bs = out ++ t := by
  unfold AssetPackageData.writePbd at h
  split at h
  · split at h
    · rename_i deps hdeps
      simp only [Prod.mk.injEq] at h
      exact ⟨i32ToLE (Int.ofNat deps.length) ++ deps.flatMap FName.writeBytes,
        by rw [← h.1, List.append_assoc]⟩
    · simp only [Prod.mk.injEq] at h
      exact ⟨i32ToLE 0, h.1.symm⟩
  · simp only [Prod.mk.injEq] at h
    refine ⟨[], ?_⟩
    rw [← h.1, List.append_nil]

theorem writeImported_fst_ext {s : AssetPackageData} {o : ObjectVersionUE5}
    {out bs : List Nat} {e : Option Error} (h : s.writeImported o out = (bs, e)) :
    ∃ t, bs = out ++ t := by
  unfold AssetPackageData.writeImported at h
  split at h
  · split at h
    · simp only [Prod.mk.injEq] at h
      refine ⟨[], ?_⟩
      rw [← h.1, List.append_nil]
    · rename_i ics hics
      obtain ⟨t, ht⟩ := writePbd_fst_ext h
      exact ⟨ics.flatMap FName.writeBytes ++ t, by rw [ht]; simp [List.append_assoc]⟩
  · exact writePbd_fst_ext h

theorem writeFileTail_fst_ext {s : AssetPackageData} {o : ObjectVersionUE5}
    {out bs : List Nat} {e : Option Error} (h : s.writeFileTail o out = (bs, e)) :
    ∃ t, bs = out ++ t := by
  unfold AssetPackageData.writeFileTail at h
  split at h
  · simp only [Prod.mk.injEq] at h
    exact ⟨i32ToLE s.file_version_licensee_ue ++ u32ToLE s.flags,
      by rw [← h.1]; simp [List.append_assoc]⟩
  · rename_i cvs hcvs
    obtain ⟨t, ht⟩ := writeImported_fst_ext h
    exact ⟨i32ToLE s.file_version_licensee_ue ++ u32ToLE s.flags ++
      i32ToLE (Int.ofNat cvs.length) ++ cvs.flatMap CustomVersion.writeBytes ++ t,
      by rw [ht]; simp [List.append_assoc]⟩

theorem writeFileVersions_fst_ext {s : AssetPackageData} {o : ObjectVersionUE5}
    {out bs : List Nat} {e : Option Error} (h : s.writeFileVersions o out = (bs, e)) :
    ∃ t, bs = out ++ t := by
  unfold AssetPackageData.writeFileVersions at h
  split at h
  · split at h
    · split at h
      · simp only [Prod.mk.injEq] at h
        exact ⟨i32ToLE s.file_version, h.1.symm⟩
      · rename_i u5v hu5
        obtain ⟨t, ht⟩ := writeFileTail_fst_ext h
        exact ⟨i32ToLE s.file_version ++ i32ToLE u5v ++ t,
          by rw [ht]; simp [List.append_assoc]⟩
    · obtain ⟨t, ht⟩ := writeFileTail_fst_ext h
      exact ⟨i32ToLE s.file_version ++ t, by rw [ht]; simp [List.append_assoc]⟩
  · exact writeImported_fst_ext h

theorem write_fst_ext {s : AssetPackageData} {o : ObjectVersionUE5}
    {bs : List Nat} {e : Option Error} (h : s.write o = (bs, e)) :
    ∃ t, bs = FName.writeBytes s.package_name ++ i64ToLE s.disk_size ++
      s.package_guid.data ++ t := by
  unfold AssetPackageData.write at h
  split at h
  · split at h
    · simp only [Prod.mk.injEq] at h
      refine ⟨[], ?_⟩
      rw [← h.1, List.append_nil]
    · rename_i ch hch
      obtain ⟨t, ht⟩ := writeFileVersions_fst_ext h
      exact ⟨ch.hash ++ t, by rw [ht]; simp [List.append_assoc]⟩
  · exact writeFileVersions_fst_ext h

theorem write_snd_cooked_missing {s : AssetPackageData} (o : ObjectVersionUE5)
    (hv : FAssetRegistryVersionType.AddedCookedMD5Hash ≤ s.version)
    (hc : s.cooked_hash = none) :
    (s.write o).2 = some (.registryVersion "Cooked hash" s.version) := by
  simp [AssetPackageData.write, hv, hc]

theorem write_snd_ue5_missing {s : AssetPackageData} (o : ObjectVersionUE5)
    (hv : FAssetRegistryVersionType.PackageFileSummaryVersionChange ≤ s.version)
    (hc : s.cooked_hash.isSome) (hu : s.ue5_version = none) :
    (s.write o).2 = some (.registryVersion "UE5 Version" s.version) := by
  obtain ⟨ch, hch⟩ := Option.isSome_iff_exists.mp hc
  have hw : FAssetRegistryVersionType.WorkspaceDomain ≤ s.version := wd_le_of_pfsvc hv
  have ha : FAssetRegistryVersionType.AddedCookedMD5Hash ≤ s.version := acmh_le_of_wd hw
  simp [AssetPackageData.write, AssetPackageData.writeFileVersions, hch, ha, hw, hv, hu]

theorem write_snd_cv_missing {s : AssetPackageData} (o : ObjectVersionUE5)
    (hw : FAssetRegistryVersionType.WorkspaceDomain ≤ s.version)
    (hc : s.cooked_hash.isSome)
    (hu : FAssetRegistryVersionType.PackageFileSummaryVersionChange ≤ s.version →
      s.ue5_version.isSome)
    (hcv : s.custom_versions = none) :
    (s.write o).2 = some (.registryVersion "Custom versions" s.version) := by
  obtain ⟨ch, hch⟩ := Option.isSome_iff_exists.mp hc
  have ha : FAssetRegistryVersionType.AddedCookedMD5Hash ≤ s.version := acmh_le_of_wd hw
  by_cases hp : FAssetRegistryVersionType.PackageFileSummaryVersionChange ≤ s.version
  · obtain ⟨u5, hu5⟩ := Option.isSome_iff_exists.mp (hu hp)
    simp [AssetPackageData.write, AssetPackageData.writeFileVersions,
      AssetPackageData.writeFileTail, hch, ha, hw, hp, hu5, hcv]
  · simp [AssetPackageData.write, AssetPackageData.writeFileVersions,
      AssetPackageData.writeFileTail, hch, ha, hw, hp, hcv]

theorem write_snd_ic_missing {s : AssetPackageData} (o : ObjectVersionUE5)
    (hpic : FAssetRegistryVersionType.PackageImportedClasses ≤ s.version)
    (hc : s.cooked_hash.isSome)
    (hu : FAssetRegistryVersionType.PackageFileSummaryVersionChange ≤ s.version →
      s.ue5_version.isSome)
    (hcv : s.custom_versions.isSome)
    (hic : s.imported_classes = none) :
    (s.write o).2 = some (.registryVersion "Imported classes" s.version) := by
  obtain ⟨ch, hch⟩ := Option.isSome_iff_exists.mp hc
  obtain ⟨cvs, hcvs⟩ := Option.isSome_iff_exists.mp hcv
  have hw : FAssetRegistryVersionType.WorkspaceDomain ≤ s.version := wd_le_of_pic hpic
  have ha : FAssetRegistryVersionType.AddedCookedMD5Hash ≤ s.version := acmh_le_of_wd hw
  by_cases hp : FAssetRegistryVersionType.PackageFileSummaryVersionChange ≤ s.version
  · obtain ⟨u5, hu5⟩ := Option.isSome_iff_exists.mp (hu hp)
    simp [AssetPackageData.write, AssetPackageData.writeFileVersions,
      AssetPackageData.writeFileTail, AssetPackageData.writeImported,
      hch, ha, hw, hp, hu5, hcvs, hpic, hic]
  · simp [AssetPackageData.write, AssetPackageData.writeFileVersions,
      AssetPackageData.writeFileTail, AssetPackageData.writeImported,
      hch, ha, hw, hp, hcvs, hpic, hic]

theorem writeImported_pbd_tail {s : AssetPackageData} {o : ObjectVersionUE5}
    {out bs : List Nat} {e : Option Error} (h : s.writeImported o out = (bs, e))
    (hic : FAssetRegistryVersionType.PackageImportedClasses ≤ s.version →
      s.imported_classes.isSome)
    (ho : ObjectVersionUE5.ASSETREGISTRY_PACKAGEBUILDDEPENDENCIES ≤ o)
    (hp : s.package_build_dependencies = none) :
    ∃ pre, (bs, e) = (pre ++ i32ToLE 0, (none : Option Error)) := by
  unfold AssetPackageData.writeImported at h
  split at h
  · rename_i hgate
    split at h
    · rename_i heq
      have hx := hic hgate
      rw [heq] at hx
      simp at hx
    · rw [writePbd_absent _ ho hp] at h
      exact ⟨_, h.symm⟩
  · rw [writePbd_absent _ ho hp] at h
    exact ⟨_, h.symm⟩

theorem writeFileTail_pbd_tail {s : AssetPackageData} {o : ObjectVersionUE5}
    {out bs : List Nat} {e : Option Error} (h : s.writeFileTail o out = (bs, e))
    (hcv : s.custom_versions.isSome)
    (hic : FAssetRegistryVersionType.PackageImportedClasses ≤ s.version →
      s.imported_classes.isSome)
    (ho : ObjectVersionUE5.ASSETREGISTRY_PACKAGEBUILDDEPENDENCIES ≤ o)
    (hp : s.package_build_dependencies = none) :
    ∃ pre, (bs, e) = (pre ++ i32ToLE 0, (none : Option Error)) := by
  unfold AssetPackageData.writeFileTail at h
  split at h
  · rename_i heq
    rw [heq] at hcv
    simp at hcv
  · exact writeImported_pbd_tail h hic ho hp

theorem writeFileVersions_pbd_tail {s : AssetPackageData} {o : ObjectVersionUE5}
    {out bs : List Nat} {e : Option Error} (h : s.writeFileVersions o out = (bs, e))
    (hu : FAssetRegistryVersionType.PackageFileSummaryVersionChange ≤ s.version →
      s.ue5_version.isSome)
    (hcv : FAssetRegistryVersionType.WorkspaceDomain ≤ s.version →
      s.custom_versions.isSome)
    (hic : FAssetRegistryVersionType.PackageImportedClasses ≤ s.version →
      s.imported_classes.isSome)
    (ho : ObjectVersionUE5.ASSETREGISTRY_PACKAGEBUILDDEPENDENCIES ≤ o)
    (hp : s.package_build_dependencies = none) :
    ∃ pre, (bs, e) = (pre ++ i32ToLE 0, (none : Option Error)) := by
  unfold AssetPackageData.writeFileVersions at h
  split at h
  · rename_i hwd
    split at h
    · rename_i hpf
      split at h
      · rename_i hequ
        have hx := hu hpf
        rw [hequ] at hx
        simp at hx
      · exact writeFileTail_pbd_tail h (hcv hwd) hic ho hp
    · exact writeFileTail_pbd_tail h (hcv hwd) hic ho hp
  · exact writeImported_pbd_tail h hic ho hp

theorem write_pbd_tail {s : AssetPackageData} {o : ObjectVersionUE5}
    {bs : List Nat} {e : Option Error} (h : s.write o = (bs, e))
    (hch : FAssetRegistryVersionType.AddedCookedMD5Hash ≤ s.version →
      s.cooked_hash.isSome)
    (hu : FAssetRegistryVersionType.PackageFileSummaryVersionChange ≤ s.version →
      s.ue5_version.isSome)
    (hcv : FAssetRegistryVersionType.WorkspaceDomain ≤ s.version →
      s.custom_versions.isSome)
    (hic : FAssetRegistryVersionType.PackageImportedClasses ≤ s.version →
      s.imported_classes.isSome)
    (ho : ObjectVersionUE5.ASSETREGISTRY_PACKAGEBUILDDEPENDENCIES ≤ o)
    (hp : s.package_build_dependencies = none) :
    ∃ pre, (bs, e) = (pre ++ i32ToLE 0, (none : Option Error)) := by
  unfold AssetPackageData.write at h
  split at h
  · rename_i ha
    split at h
    · rename_i heq
      have hx := hch ha
      rw [heq] at hx
      simp at hx
    · exact writeFileVersions_pbd_tail h hu hcv hic ho hp
  · exact writeFileVersions_pbd_tail h hu hcv hic ho hp

/-- The write error depends only on the record, never on the archive's UE5
object version: it is exactly `writeErr`. -/
theorem write_snd_eq (s : AssetPackageData) (o : ObjectVersionUE5) :
    (s.write o).2 = writeErr s := by
  unfold writeErr
  split_ifs with h1 h2 h3 h4
  · exact write_snd_cooked_missing o h1.1 h1.2
  · have hc : s.cooked_hash.isSome := by
      rcases hx : s.cooked_hash with _ | c
      · exact absurd ⟨acmh_le_of_wd h2.1, hx⟩ h1
      · rfl
    exact write_snd_ue5_missing o h2.2.1 hc h2.2.2
  · have hc : s.cooked_hash.isSome := by
      rcases hx : s.cooked_hash with _ | c
      · exact absurd ⟨acmh_le_of_wd h3.1, hx⟩ h1
      · rfl
    have hu : FAssetRegistryVersionType.PackageFileSummaryVersionChange ≤ s.version →
        s.ue5_version.isSome := by
      intro hp
      rcases hx : s.ue5_version with _ | u
      · exact absurd ⟨h3.1, hp, hx⟩ h2
      · rfl
    exact write_snd_cv_missing o h3.1 hc hu h3.2
  · have hw := wd_le_of_pic h4.1
    have hc : s.cooked_hash.isSome := by
      rcases hx : s.cooked_hash with _ | c
      · exact absurd ⟨acmh_le_of_wd hw, hx⟩ h1
      · rfl
    have hu : FAssetRegistryVersionType.PackageFileSummaryVersionChange ≤ s.version →
        s.ue5_version.isSome := by
      intro hp
      rcases hx : s.ue5_version with _ | u
      · exact absurd ⟨hw, hp, hx⟩ h2
      · rfl
    have hcv : s.custom_versions.isSome := by
      rcases hx : s.custom_versions with _ | c
      · exact absurd ⟨hw, hx⟩ h3
      · rfl
    exact write_snd_ic_missing o h4.1 hc hu hcv h4.2
  · refine write_snd_none ?_ ?_ ?_ ?_
    · intro ha
      rcases hx : s.cooked_hash with _ | c
      · exact absurd ⟨ha, hx⟩ h1
      · rfl
    · intro hp
      rcases hx : s.ue5_version with _ | u
      · exact absurd ⟨wd_le_of_pfsvc hp, hp, hx⟩ h2
      · rfl
    · intro hw
      rcases hx : s.custom_versions with _ | c
      · exact absurd ⟨hw, hx⟩ h3
      · rfl
    · intro hpic
      rcases hx : s.imported_classes with _ | c
      · exact absurd ⟨hpic, hx⟩ h4
      · rfl

/-- Below the UE5 build-dependencies threshold, the in-memory value of
`package_build_dependencies` has no effect on the write at all. -/
theorem write_pbd_agnostic (r : AssetPackageData) (o : ObjectVersionUE5)
    (ho : ¬ ObjectVersionUE5.ASSETREGISTRY_PACKAGEBUILDDEPENDENCIES ≤ o) :
    r.write o = AssetPackageData.write { r with package_build_dependencies := none } o := by
  obtain ⟨pn, pg, ch, ic, ds, fv, u5, lic, cv, fl, pbd, ver⟩ := r
  simp only [AssetPackageData.write, AssetPackageData.writeFileVersions,
    AssetPackageData.writeFileTail, AssetPackageData.writeImported,
    AssetPackageData.writePbd, ho, if_false]

/-- Below `AddedCookedMD5Hash`, the in-memory value of `cooked_hash` has no
effect on the write at all. -/
theorem write_cooked_agnostic (r : AssetPackageData) (o : ObjectVersionUE5)
    (hv : ¬ FAssetRegistryVersionType.AddedCookedMD5Hash ≤ r.version) :
    r.write o = AssetPackageData.write { r with cooked_hash := none } o := by
  obtain ⟨pn, pg, ch, ic, ds, fv, u5, lic, cv, fl, pbd, ver⟩ := r
  replace hv : ¬ FAssetRegistryVersionType.AddedCookedMD5Hash ≤ ver := hv
  simp only [AssetPackageData.write, AssetPackageData.writeFileVersions,
    AssetPackageData.writeFileTail, AssetPackageData.writeImported,
    AssetPackageData.writePbd, hv, if_false]

/-- Below `PackageImportedClasses`, the in-memory value of `imported_classes`
has no effect on the write at all. -/
theorem write_ic_agnostic (r : AssetPackageData) (o : ObjectVersionUE5)
    (hv : ¬ FAssetRegistryVersionType.PackageImportedClasses ≤ r.version) :
    r.write o = AssetPackageData.write { r with imported_classes := none } o := by
  obtain ⟨pn, pg, ch, ic, ds, fv, u5, lic, cv, fl, pbd, ver⟩ := r
  replace hv : ¬ FAssetRegistryVersionType.PackageImportedClasses ≤ ver := hv
  simp only [AssetPackageData.write, AssetPackageData.writeFileVersions,
    AssetPackageData.writeFileTail, AssetPackageData.writeImported,
    AssetPackageData.writePbd, hv, if_false]

/-! ## Claim theorems -/

/-- C1: the round-trip property fails on the code as written. `sampleV10` is a
record consistent with registry version `PackageImportedClasses` (10) whose
gated fields are all populated exactly as the gates require; `write` succeeds,
but decoding the produced bytes with the same versions fails (with an
`IoError`) instead of returning the original record, because the
imported-classes list is written without its element count. -/
theorem c1_roundtrip_fails_on_imported_classes :
    (AssetPackageData.write sampleV10 0).2 = none ∧
    AssetPackageData.new (AssetPackageData.write sampleV10 0).1 10 0 =
      .error .ioError :=
  ⟨rfl, rfl⟩

/-- C2: contrary to the claim, when the `PackageImportedClasses` gate holds
the encoder emits the serialized names of `imported_classes` with no `i32`
element count in front of them: the output of `write` on `sampleV10` is the
head bytes followed directly by the one name, and differs from the
count-prefixed sequence encoding the claim describes. -/
theorem c2_imported_classes_written_without_count :
    AssetPackageData.write sampleV10 0 =
      (sampleV10Head ++ FName.writeBytes ⟨1, 2⟩, none) ∧
    sampleV10Head ++ FName.writeBytes ⟨1, 2⟩ ≠
      sampleV10Head ++ i32ToLE 1 ++ FName.writeBytes ⟨1, 2⟩ :=
  ⟨by decide, by decide⟩

/-- C3 (counterexample): decoding a 32-byte input at registry version 0
(below `WorkspaceDomain`) succeeds and produces a record in which the
version-gated scalar fields are set to the sentinel defaults
`file_version = 0`, `file_version_licensee_ue = -1`, `flags = 0` — they are
not left absent, because the struct fields are not optional; only
`custom_versions` is left `None`. -/
theorem c3_sentinel_defaults_cex :
    AssetPackageData.new lowInput 0 0 = .ok (lowRec, []) ∧
    lowRec.file_version = 0 ∧ lowRec.file_version_licensee_ue = -1 ∧
    lowRec.flags = 0 ∧ lowRec.custom_versions = none :=
  ⟨by decide, rfl, rfl, rfl, rfl⟩

/-- C3 (amended): for every input whose registry version is below
`WorkspaceDomain`, decoding leaves the optional fields `custom_versions` and
`ue5_version` absent, while the non-optional gated fields receive the
defaults `file_version = 0`, `file_version_licensee_ue = -1`, `flags = 0`. -/
theorem c3_low_version_decode_amended (bytes : List Nat)
    (ver : FAssetRegistryVersionType) (objv : ObjectVersionUE5)
    (rec : AssetPackageData) (rest : List Nat)
    (hv : ¬ FAssetRegistryVersionType.WorkspaceDomain ≤ ver)
    (h : AssetPackageData.new bytes ver objv = .ok (rec, rest)) :
    rec.custom_versions = none ∧ rec.ue5_version = none ∧
    rec.file_version = 0 ∧ rec.file_version_licensee_ue = -1 ∧ rec.flags = 0 := by
  obtain ⟨-, -, -, hcv, -, -, hdef⟩ := new_fields h
  obtain ⟨h1, h2, h3, h4⟩ := hdef hv
  exact ⟨eq_none_of_isSome_false (by rw [hcv]; simp [hv]), h2, h1, h3, h4⟩

/-- Witness for C3 (amended) at the concrete 32-byte zero input. -/
theorem c3_low_version_decode_amended_witness :
    lowRec.custom_versions = none ∧ lowRec.ue5_version = none ∧
    lowRec.file_version = 0 ∧ lowRec.file_version_licensee_ue = -1 ∧
    lowRec.flags = 0 :=
  c3_low_version_decode_amended lowInput 0 0 lowRec [] (by decide) (by decide)

/-- C4 (counterexample): a record at registry version 11 (at or above
`PackageFileSummaryVersionChange`) with `ue5_version = None` does not always
fail with an error naming the UE5 Version field: when `cooked_hash` is also
missing, the error names "Cooked hash" instead, because the checks run in
field order. -/
theorem c4_first_missing_field_named_cex :
    (AssetPackageData.write sampleMissingBoth 0).2 =
      some (.registryVersion "Cooked hash" 11) ∧
    Error.registryVersion "Cooked hash" 11 ≠
      Error.registryVersion "UE5 Version" 11 :=
  ⟨by decide, by decide⟩

/-- C4 (amended): encoding fails with a `MissingRequiredField`-style error
naming the field and the record's stored version — naming "Cooked hash"
whenever its gate holds and it is absent (it is checked first), naming
"UE5 Version" when its gate holds and it is absent provided `cooked_hash` is
present, and naming "Custom versions" when its gate holds and it is absent
provided the fields checked earlier are present. -/
theorem c4_missing_required_field_amended :
    (∀ (s : AssetPackageData) (o : ObjectVersionUE5),
      FAssetRegistryVersionType.AddedCookedMD5Hash ≤ s.version →
      s.cooked_hash = none →
      (s.write o).2 = some (.registryVersion "Cooked hash" s.version)) ∧
    (∀ (s : AssetPackageData) (o : ObjectVersionUE5),
      FAssetRegistryVersionType.PackageFileSummaryVersionChange ≤ s.version →
      s.cooked_hash.isSome → s.ue5_version = none →
      (s.write o).2 = some (.registryVersion "UE5 Version" s.version)) ∧
    (∀ (s : AssetPackageData) (o : ObjectVersionUE5),
      FAssetRegistryVersionType.WorkspaceDomain ≤ s.version →
      s.cooked_hash.isSome →
      (FAssetRegistryVersionType.PackageFileSummaryVersionChange ≤ s.version →
        s.ue5_version.isSome) →
      s.custom_versions = none →
      (s.write o).2 = some (.registryVersion "Custom versions" s.version)) :=
  ⟨fun _ o => write_snd_cooked_missing o, fun _ o => write_snd_ue5_missing o,
   fun _ o => write_snd_cv_missing o⟩

/-- Witness for C4 (amended): three concrete records, each missing exactly
one gated field, produce exactly the predicted errors. -/
theorem c4_missing_required_field_amended_witness :
    (AssetPackageData.write sampleMissingHash 0).2 =
      some (.registryVersion "Cooked hash" sampleMissingHash.version) ∧
    (AssetPackageData.write sampleMissingUE5 0).2 =
      some (.registryVersion "UE5 Version" sampleMissingUE5.version) ∧
    (AssetPackageData.write sampleMissingCV 0).2 =
      some (.registryVersion "Custom versions" sampleMissingCV.version) :=
  ⟨c4_missing_required_field_amended.1 sampleMissingHash 0 (by decide) (by decide),
   c4_missing_required_field_amended.2.1 sampleMissingUE5 0 (by decide) (by decide)
     (by decide),
   c4_missing_required_field_amended.2.2 sampleMissingCV 0 (by decide) (by decide)
     (by decide) (by decide)⟩

/-- C5: when the writer's UE5 object version is at or above
`ASSETREGISTRY_PACKAGEBUILDDEPENDENCIES` and `package_build_dependencies`
is `None`, encoding succeeds (given the registry-gated fields are populated)
and its output ends with a zero `i32` count; the leniency applies to the
build-dependencies field only — an absent `custom_versions` or
`imported_classes` under its gate makes the write fail instead. -/
theorem c5_build_dependencies_leniency :
    (∀ (s : AssetPackageData) (o : ObjectVersionUE5),
      ObjectVersionUE5.ASSETREGISTRY_PACKAGEBUILDDEPENDENCIES ≤ o →
      s.package_build_dependencies = none →
      (FAssetRegistryVersionType.AddedCookedMD5Hash ≤ s.version →
        s.cooked_hash.isSome) →
      (FAssetRegistryVersionType.PackageFileSummaryVersionChange ≤ s.version →
        s.ue5_version.isSome) →
      (FAssetRegistryVersionType.WorkspaceDomain ≤ s.version →
        s.custom_versions.isSome) →
      (FAssetRegistryVersionType.PackageImportedClasses ≤ s.version →
        s.imported_classes.isSome) →
      (s.write o).2 = none ∧ ∃ pre, (s.write o).1 = pre ++ i32ToLE 0) ∧
    (∀ (s : AssetPackageData) (o : ObjectVersionUE5),
      FAssetRegistryVersionType.WorkspaceDomain ≤ s.version →
      s.custom_versions = none → (s.write o).2 ≠ none) ∧
    (∀ (s : AssetPackageData) (o : ObjectVersionUE5),
      FAssetRegistryVersionType.PackageImportedClasses ≤ s.version →
      s.imported_classes = none → (s.write o).2 ≠ none) := by
  refine ⟨?_, ?_, ?_⟩
  · intro s o ho hp h1 h2 h3 h4
    rcases hres : s.write o with ⟨bs, e⟩
    obtain ⟨pre, hpre⟩ := write_pbd_tail hres h1 h2 h3 h4 ho hp
    simp only [Prod.mk.injEq] at hpre
    exact ⟨hpre.2, pre, hpre.1⟩
  · intro s o hw hcv hnone
    rcases hx : s.cooked_hash with _ | c
    · rw [write_snd_cooked_missing o (acmh_le_of_wd hw) hx] at hnone
      exact Option.noConfusion hnone
    · have hcs : s.cooked_hash.isSome := by rw [hx]; rfl
      by_cases hpf : FAssetRegistryVersionType.PackageFileSummaryVersionChange ≤ s.version
      · rcases hy : s.ue5_version with _ | u
        · rw [write_snd_ue5_missing o hpf hcs hy] at hnone
          exact Option.noConfusion hnone
        · rw [write_snd_cv_missing o hw hcs (fun _ => by rw [hy]; rfl) hcv] at hnone
          exact Option.noConfusion hnone
      · rw [write_snd_cv_missing o hw hcs (fun hq => absurd hq hpf) hcv] at hnone
        exact Option.noConfusion hnone
  · intro s o hpic hic hnone
    have hw := wd_le_of_pic hpic
    rcases hx : s.cooked_hash with _ | c
    · rw [write_snd_cooked_missing o (acmh_le_of_wd hw) hx] at hnone
      exact Option.noConfusion hnone
    · have hcs : s.cooked_hash.isSome := by rw [hx]; rfl
      by_cases hpf : FAssetRegistryVersionType.PackageFileSummaryVersionChange ≤ s.version
      · rcases hy : s.ue5_version with _ | u
        · rw [write_snd_ue5_missing o hpf hcs hy] at hnone
          exact Option.noConfusion hnone
        · have hus : FAssetRegistryVersionType.PackageFileSummaryVersionChange ≤
              s.version → s.ue5_version.isSome := fun _ => by rw [hy]; rfl
          rcases hz : s.custom_versions with _ | cvs
          · rw [write_snd_cv_missing o hw hcs hus hz] at hnone
            exact Option.noConfusion hnone
          · rw [write_snd_ic_missing o hpic hcs hus (by rw [hz]; rfl) hic] at hnone
            exact Option.noConfusion hnone
      · have hus : FAssetRegistryVersionType.PackageFileSummaryVersionChange ≤
            s.version → s.ue5_version.isSome := fun hq => absurd hq hpf
        rcases hz : s.custom_versions with _ | cvs
        · rw [write_snd_cv_missing o hw hcs hus hz] at hnone
          exact Option.noConfusion hnone
        · rw [write_snd_ic_missing o hpic hcs hus (by rw [hz]; rfl) hic] at hnone
          exact Option.noConfusion hnone

/-- Witness for C5 at concrete records: the UE5-era full record with absent
build dependencies writes successfully with a trailing zero count, while
records missing `custom_versions` or `imported_classes` under their gates
fail. -/
theorem c5_build_dependencies_leniency_witness :
    ((AssetPackageData.write sampleV11Full 1013).2 = none ∧
      ∃ pre, (AssetPackageData.write sampleV11Full 1013).1 = pre ++ i32ToLE 0) ∧
    (AssetPackageData.write sampleMissingCV 0).2 ≠ none ∧
    (AssetPackageData.write sampleMissingIC 0).2 ≠ none :=
  ⟨c5_build_dependencies_leniency.1 sampleV11Full 1013 (by decide) (by decide)
      (by decide) (by decide) (by decide) (by decide),
   c5_build_dependencies_leniency.2.1 sampleMissingCV 0 (by decide) (by decide),
   c5_build_dependencies_leniency.2.2 sampleMissingIC 0 (by decide) (by decide)⟩

/-- C6: under a version below a field's threshold the encoder emits no bytes
for that field even when the in-memory value is `Some` (the output is
byte-for-byte the output for the record with the field dropped), and decoding
under such a version always leaves the field `None` — for
`package_build_dependencies` below `ASSETREGISTRY_PACKAGEBUILDDEPENDENCIES`
and for `cooked_hash` below `AddedCookedMD5Hash`. -/
theorem c6_write_omission_below_threshold :
    (∀ (r : AssetPackageData) (o : ObjectVersionUE5),
      ¬ ObjectVersionUE5.ASSETREGISTRY_PACKAGEBUILDDEPENDENCIES ≤ o →
      r.write o =
        AssetPackageData.write { r with package_build_dependencies := none } o) ∧
    (∀ (bytes : List Nat) (ver : FAssetRegistryVersionType) (o : ObjectVersionUE5)
      (rec : AssetPackageData) (rest : List Nat),
      ¬ ObjectVersionUE5.ASSETREGISTRY_PACKAGEBUILDDEPENDENCIES ≤ o →
      AssetPackageData.new bytes ver o = .ok (rec, rest) →
      rec.package_build_dependencies = none) ∧
    (∀ (r : AssetPackageData) (o : ObjectVersionUE5),
      ¬ FAssetRegistryVersionType.AddedCookedMD5Hash ≤ r.version →
      r.write o = AssetPackageData.write { r with cooked_hash := none } o) ∧
    (∀ (bytes : List Nat) (ver : FAssetRegistryVersionType) (o : ObjectVersionUE5)
      (rec : AssetPackageData) (rest : List Nat),
      ¬ FAssetRegistryVersionType.AddedCookedMD5Hash ≤ ver →
      AssetPackageData.new bytes ver o = .ok (rec, rest) →
      rec.cooked_hash = none) := by
  refine ⟨write_pbd_agnostic, ?_, write_cooked_agnostic, ?_⟩
  · intro bytes ver o rec rest ho h
    obtain ⟨-, -, -, -, -, hpbd, -⟩ := new_fields h
    exact eq_none_of_isSome_false (by rw [hpbd]; simp [ho])
  · intro bytes ver o rec rest hv h
    obtain ⟨-, hc, -⟩ := new_fields h
    exact eq_none_of_isSome_false (by rw [hc]; simp [hv])

/-- Witness for C6 at `sampleStale` (version 0, object version 0, with stale
`Some` values): its output equals the output with the stale fields dropped,
and decoding that output yields `None` for both fields. -/
theorem c6_write_omission_below_threshold_witness :
    AssetPackageData.write sampleStale 0 =
      AssetPackageData.write { sampleStale with package_build_dependencies := none } 0 ∧
    sampleStaleDecoded.package_build_dependencies = none ∧
    AssetPackageData.write sampleStale 0 =
      AssetPackageData.write { sampleStale with cooked_hash := none } 0 ∧
    sampleStaleDecoded.cooked_hash = none :=
  ⟨c6_write_omission_below_threshold.1 sampleStale 0 (by decide),
   c6_write_omission_below_threshold.2.1 (AssetPackageData.write sampleStale 0).1 0 0
     sampleStaleDecoded [] (by decide) (by decide),
   c6_write_omission_below_threshold.2.2.1 sampleStale 0 (by decide),
   c6_write_omission_below_threshold.2.2.2 (AssetPackageData.write sampleStale 0).1 0 0
     sampleStaleDecoded [] (by decide) (by decide)⟩

/-- C7: a successfully decoded record has `ue5_version` populated exactly
when `registry_version ≥ PackageFileSummaryVersionChange`; in particular it
is `None` below that threshold even when the outer `WorkspaceDomain` gate
holds and `file_version` was read. -/
theorem c7_ue5_version_single_compound_gate (bytes : List Nat)
    (ver : FAssetRegistryVersionType) (objv : ObjectVersionUE5)
    (rec : AssetPackageData) (rest : List Nat)
    (h : AssetPackageData.new bytes ver objv = .ok (rec, rest)) :
    rec.ue5_version.isSome ↔
      FAssetRegistryVersionType.PackageFileSummaryVersionChange ≤ ver := by
  have hx := (new_fields h).2.2.1
  constructor
  · intro hs
    rw [hx] at hs
    exact of_decide_eq_true hs
  · intro hs
    rw [hx]
    exact decide_eq_true hs

/-- Witness for C7: decoding `wdInput` at registry version 9 (inside the
`WorkspaceDomain` gate, below `PackageFileSummaryVersionChange`) leaves
`ue5_version` unpopulated. -/
theorem c7_ue5_version_single_compound_gate_witness :
    wdRec.ue5_version.isSome ↔
      FAssetRegistryVersionType.PackageFileSummaryVersionChange ≤ 9 :=
  c7_ue5_version_single_compound_gate wdInput 9 0 wdRec [] (by decide)

/-- C8: for a fixed byte input, decoding under a lower registry version never
yields more populated optional fields than decoding under a higher one (the
object-version axis held fixed), whenever both decodes succeed. -/
theorem c8_monotonic_gating (bytes : List Nat) (r1 r2 : FAssetRegistryVersionType)
    (objv : ObjectVersionUE5) (rec1 rec2 : AssetPackageData) (rest1 rest2 : List Nat)
    (hle : r1 ≤ r2)
    (h1 : AssetPackageData.new bytes r1 objv = .ok (rec1, rest1))
    (h2 : AssetPackageData.new bytes r2 objv = .ok (rec2, rest2)) :
    (rec1.cooked_hash.isSome → rec2.cooked_hash.isSome) ∧
    (rec1.ue5_version.isSome → rec2.ue5_version.isSome) ∧
    (rec1.custom_versions.isSome → rec2.custom_versions.isSome) ∧
    (rec1.imported_classes.isSome → rec2.imported_classes.isSome) ∧
    (rec1.package_build_dependencies.isSome →
      rec2.package_build_dependencies.isSome) := by
  obtain ⟨-, ha1, hu1, hcv1, hic1, hpbd1, -⟩ := new_fields h1
  obtain ⟨-, ha2, hu2, hcv2, hic2, hpbd2, -⟩ := new_fields h2
  refine ⟨?_, ?_, ?_, ?_, ?_⟩
  · intro hx
    rw [ha1] at hx
    rw [ha2]
    exact decide_eq_true (le_trans (of_decide_eq_true hx) hle)
  · intro hx
    rw [hu1] at hx
    rw [hu2]
    exact decide_eq_true (le_trans (of_decide_eq_true hx) hle)
  · intro hx
    rw [hcv1] at hx
    rw [hcv2]
    exact decide_eq_true (le_trans (of_decide_eq_true hx) hle)
  · intro hx
    rw [hic1] at hx
    rw [hic2]
    exact decide_eq_true (le_trans (of_decide_eq_true hx) hle)
  · intro hx
    rw [hpbd1] at hx
    rw [hpbd2]
    exact hx

/-- Witness for C8: `wdInput` decodes both at registry version 0 (consuming
the 32-byte head) and at registry version 9 (consuming all 64 bytes). -/
theorem c8_monotonic_gating_witness :
    (wdRecLow.cooked_hash.isSome → wdRec.cooked_hash.isSome) ∧
    (wdRecLow.ue5_version.isSome → wdRec.ue5_version.isSome) ∧
    (wdRecLow.custom_versions.isSome → wdRec.custom_versions.isSome) ∧
    (wdRecLow.imported_classes.isSome → wdRec.imported_classes.isSome) ∧
    (wdRecLow.package_build_dependencies.isSome →
      wdRec.package_build_dependencies.isSome) :=
  c8_monotonic_gating wdInput 0 9 0 wdRecLow wdRec (wdInput.drop 32) []
    (by decide) (by decide) (by decide)

/-- C9: a decoded record stores the registry version it was constructed with
in its (private) `version` field, and encoding gates the registry-versioned
fields on that stored version, not on anything supplied at write time: the
write error is a function `writeErr` of the record alone (independent of the
archive's object version), and below `PackageImportedClasses` the stored
version suppresses the imported-classes segment regardless of the in-memory
value. -/
theorem c9_stored_version_gating :
    (∀ (bytes : List Nat) (ver : FAssetRegistryVersionType)
      (objv : ObjectVersionUE5) (rec : AssetPackageData) (rest : List Nat),
      AssetPackageData.new bytes ver objv = .ok (rec, rest) → rec.version = ver) ∧
    (∀ (s : AssetPackageData) (o o2 : ObjectVersionUE5),
      (s.write o).2 = (s.write o2).2) ∧
    (∀ (s : AssetPackageData) (o : ObjectVersionUE5),
      (s.write o).2 = writeErr s) ∧
    (∀ (r : AssetPackageData) (o : ObjectVersionUE5),
      ¬ FAssetRegistryVersionType.PackageImportedClasses ≤ r.version →
      r.write o = AssetPackageData.write { r with imported_classes := none } o) := by
  refine ⟨?_, ?_, write_snd_eq, write_ic_agnostic⟩
  · intro bytes ver objv rec rest h
    exact (new_fields h).1
  · intro s o o2
    rw [write_snd_eq, write_snd_eq]

/-- Witness for C9 at concrete values. -/
theorem c9_stored_version_gating_witness :
    wdRec.version = 9 ∧
    (AssetPackageData.write sampleV11Full 0).2 =
      (AssetPackageData.write sampleV11Full 1013).2 ∧
    (AssetPackageData.write sampleMissingBoth 0).2 = writeErr sampleMissingBoth ∧
    AssetPackageData.write wdRec 0 =
      AssetPackageData.write { wdRec with imported_classes := none } 0 :=
  ⟨c9_stored_version_gating.1 wdInput 9 0 wdRec [] (by decide),
   c9_stored_version_gating.2.1 sampleV11Full 0 1013,
   c9_stored_version_gating.2.2.1 sampleMissingBoth 0,
   c9_stored_version_gating.2.2.2 wdRec 0 (by decide)⟩

/-- C10: encoding is not atomic on error — whenever `write` returns a
missing-required-field error, the bytes of the ungated leading fields
(package name, disk size, package guid) have already been written to the
archive. -/
theorem c10_partial_write_before_error (rec : AssetPackageData)
    (obj : ObjectVersionUE5) (e : Error) (h : (rec.write obj).2 = some e) :
    ∃ tail, (rec.write obj).1 =
      FName.writeBytes rec.package_name ++ i64ToLE rec.disk_size ++
        rec.package_guid.data ++ tail := by
  rcases hres : rec.write obj with ⟨bs, e2⟩
  obtain ⟨t, ht⟩ := write_fst_ext hres
  exact ⟨t, ht⟩

/-- Witness for C10 at `sampleMissingBoth`, whose write fails with the
cooked-hash error after emitting the 32-byte head. -/
theorem c10_partial_write_before_error_witness :
    ∃ tail, (AssetPackageData.write sampleMissingBoth 0).1 =
      FName.writeBytes sampleMissingBoth.package_name ++
        i64ToLE sampleMissingBoth.disk_size ++
        sampleMissingBoth.package_guid.data ++ tail :=
  c10_partial_write_before_error sampleMissingBoth 0
    (.registryVersion "Cooked hash" 11) (by decide)

end UnrealAsset
